import Mathlib

/-!
Shallow embedding of the trivox-conductor core subsystems: the typed
endpoint/role registries, profile manager and profile activation, the
profile override resolver, the preflight engine, the event bus, the
capture service orchestration, and the plugin bootstrap registration
step.  Every definition is translated from the Python sources under
`src/trivox_conductor/`; the file/line provenance is recorded in each
doc comment.
-/

namespace Trivox

/-- Python exception values arising on the embedded code paths. -/
inductive PyErr where
  | typeError (msg : String)
  | keyError (msg : String)
  | attributeError (msg : String)
  | valueError (msg : String)
  | runtimeError (msg : String)
  | loadError (msg : String)
deriving DecidableEq, Repr

/-- Flat configuration / payload values (Python scalars as used in
settings dicts, override dicts and bus payloads). -/
inductive Val where
  | vStr (s : String)
  | vInt (n : Int)
  | vBool (b : Bool)
  | vNone
deriving DecidableEq, Repr

/-- Python truthiness of a flat value (`bool(x)`). -/
def Val.truthy : Val → Bool
  | .vStr s => !(s == "")
  | .vInt n => !(n == 0)
  | .vBool b => b
  | .vNone => false

/-- Lookup in an insertion-ordered association list; models `dict.get` /
`in` on a Python dict (first matching key wins). -/
def dlookup {κ α : Type} [DecidableEq κ] (k : κ) : List (κ × α) → Option α
  | [] => none
  | (k', v) :: rest => if k' = k then some v else dlookup k rest

/-- Keys of an association list, in insertion order. -/
def dkeys {κ α : Type} (d : List (κ × α)) : List κ := d.map Prod.fst

/-- Membership test for a key, models `k in d` on a Python dict. -/
def dhasKey {κ α : Type} [DecidableEq κ] (k : κ) (d : List (κ × α)) : Bool :=
  (dlookup k d).isSome

/-- Rewrites one association-list entry during a dict assignment: an
entry carrying the assigned key receives the new value in place. -/
def dsetEntry {κ α : Type} [DecidableEq κ] (k : κ) (v : α) (p : κ × α) : κ × α :=
  if p.1 = k then (k, v) else p

/-- Models the Python dict assignment `d[k] = v`: an existing key keeps
its position and gets the new value, a fresh key is appended. -/
def dset {κ α : Type} [DecidableEq κ] (d : List (κ × α)) (k : κ) (v : α) :
    List (κ × α) :=
  if dhasKey k d then d.map (dsetEntry k v) else d ++ [(k, v)]

/-- Models the Python `d.update(o)` / `{**d, **o}` shallow merge: every
key of `o` is written into `d` in order, last writer wins per key. -/
def dupdate {κ α : Type} [DecidableEq κ] (d o : List (κ × α)) : List (κ × α) :=
  o.foldl (fun acc p => dset acc p.1 p.2) d

/-- Models Python `sep.join(parts)`. -/
def joinSep (sep : String) : List String → String
  | [] => ""
  | [x] => x
  | x :: y :: rest => x ++ sep ++ joinSep sep (y :: rest)

/-- The string `sub` occurs contiguously inside `msg` (substring
containment, stated on the underlying character lists). -/
def strContainsSub (msg sub : String) : Prop :=
  ∃ pre post : List Char, msg.data = pre ++ sub.data ++ post

/-! ### YAML document model (input to `ProfileManager.from_yaml`) -/

/-- Parsed YAML value as produced by `yaml.safe_load`. -/
inductive Yaml where
  | null
  | bool (b : Bool)
  | int (n : Int)
  | str (s : String)
  | list (items : List Yaml)
  | map (entries : List (String × Yaml))

/-- Python truthiness of a YAML value. -/
def Yaml.truthy : Yaml → Bool
  | .null => false
  | .bool b => b
  | .int n => !(n == 0)
  | .str s => !(s == "")
  | .list items => !items.isEmpty
  | .map entries => !entries.isEmpty

/-- Models the Python expression `a or b`. -/
def pyOr (a b : Yaml) : Yaml := if a.truthy then a else b

/-- Models `y.get(k, default)`: defined on dicts, `AttributeError`
otherwise. -/
def pyGet (y : Yaml) (k : String) (default : Yaml) : Except PyErr Yaml :=
  match y with
  | .map kvs => .ok ((dlookup k kvs).getD default)
  | _ => .error (.attributeError "object has no attribute 'get'")

/-- Models subscription `y[k]` with a string key: `KeyError` on a dict
without the key, `TypeError` on non-dicts. -/
def pyGetItem (y : Yaml) (k : String) : Except PyErr Yaml :=
  match y with
  | .map kvs =>
    match dlookup k kvs with
    | some v => .ok v
    | none => .error (.keyError k)
  | _ => .error (.typeError "object is not subscriptable")

/-- Models `y.items()`: defined on dicts only. -/
def pyItems (y : Yaml) : Except PyErr (List (String × Yaml)) :=
  match y with
  | .map kvs => .ok kvs
  | _ => .error (.attributeError "object has no attribute 'items'")

/-- Models `for x in y` over a YAML value: lists yield their items, dicts
their keys, strings their characters; scalars are not iterable. -/
def pyIterate (y : Yaml) : Except PyErr (List Yaml) :=
  match y with
  | .list xs => .ok xs
  | .map kvs => .ok (kvs.map (fun p => Yaml.str p.1))
  | .str s => .ok (s.data.map (fun c => Yaml.str (String.mk [c])))
  | _ => .error (.typeError "object is not iterable")

/-- Python dataclass call check: calling a generated `__init__` with a
keyword argument that is not a declared field raises `TypeError` naming
the first such keyword.  `fields` is the dataclass's declared field
list, `kwargs` the keyword names used at the call site. -/
def dataclassCallErr (fields kwargs : List String) : Option PyErr :=
  (kwargs.find? (fun k => !(fields.contains k))).map
    (fun k => PyErr.typeError
      ("__init__() got an unexpected keyword argument '" ++ k ++ "'"))

/-! ### Profile document parsing (`core/profiles/profile_manager.py`,
`ProfileManager.from_yaml`, lines 32-71, against the dataclasses of
`core/profiles/profile_models.py`).  The parse works on raw YAML values
because the Python dataclasses store whatever the document contained,
unchecked. -/

/-- Result of `PreflightConfig(id=..., required=..., params=...)` inside
`from_yaml` (profile_models.py lines 11-23: fields `id`, `required`,
`params`). -/
structure PreflightConfigY where
  id : Yaml
  required : Yaml
  params : Yaml

/-- Result of `Adapter(name=..., role=..., overrides=..., preflights=...)`
inside `from_yaml` (profile_models.py lines 26-40). -/
structure AdapterY where
  name : Yaml
  role : String
  overrides : Yaml
  preflights : List PreflightConfigY

/-- Result a successful `PipelineProfile(...)` call would produce.  The
dataclass (profile_models.py lines 43-55) declares exactly the fields
`key`, `label`, `adapters`. -/
structure PipelineProfileY where
  key : String
  label : Yaml
  adapters : List (String × AdapterY)

/-- Declared fields of the `PipelineProfile` dataclass
(profile_models.py lines 43-55). -/
def pipelineProfileFields : List String := ["key", "label", "adapters"]

/-- Keyword names used at the `PipelineProfile(...)` call site inside
`from_yaml` (profile_manager.py lines 64-70). -/
def fromYamlProfileKwargs : List String :=
  ["key", "label", "adapters", "pipelines", "hooks"]

/-- One iteration of the inner preflight loop of `from_yaml`
(profile_manager.py lines 50-57): `PreflightConfig(id=pf["id"],
required=pf.get("required"), params=pf.get("params", {}) or {})`. -/
def parsePreflightY (pf : Yaml) : Except PyErr PreflightConfigY :=
  match pyGetItem pf "id" with
  | .error e => .error e
  | .ok idv =>
    match pyGet pf "required" .null with
    | .error e => .error e
    | .ok reqv =>
      match pyGet pf "params" (.map []) with
      | .error e => .error e
      | .ok paramsv =>
        match dataclassCallErr ["id", "required", "params"]
            ["id", "required", "params"] with
        | some e => .error e
        | none => .ok ⟨idv, reqv, pyOr paramsv (.map [])⟩

/-- The preflight list accumulation of `from_yaml` (lines 49-57). -/
def parsePreflightsY : List Yaml → Except PyErr (List PreflightConfigY)
  | [] => .ok []
  | pf :: rest =>
    match parsePreflightY pf with
    | .error e => .error e
    | .ok c =>
      match parsePreflightsY rest with
      | .error e => .error e
      | .ok cs => .ok (c :: cs)

/-- One iteration of the adapter loop of `from_yaml` (lines 48-63). -/
def parseAdapterY (role : String) (adapter_cfg : Yaml) : Except PyErr AdapterY :=
  match pyGet adapter_cfg "preflights" (.list []) with
  | .error e => .error e
  | .ok prefRaw =>
    match pyIterate (pyOr prefRaw (.list [])) with
    | .error e => .error e
    | .ok items =>
      match parsePreflightsY items with
      | .error e => .error e
      | .ok preflights =>
        match pyGetItem adapter_cfg "name" with
        | .error e => .error e
        | .ok namev =>
          match pyGet adapter_cfg "overrides" (.map []) with
          | .error e => .error e
          | .ok ov =>
            match dataclassCallErr ["name", "role", "overrides", "preflights"]
                ["name", "role", "overrides", "preflights"] with
            | some e => .error e
            | none => .ok ⟨namev, role, ov, preflights⟩

/-- The `adapters[role] = Adapter(...)` accumulation of `from_yaml`. -/
def parseAdaptersY (acc : List (String × AdapterY)) :
    List (String × Yaml) → Except PyErr (List (String × AdapterY))
  | [] => .ok acc
  | (role, adapter_cfg) :: rest =>
    match parseAdapterY role adapter_cfg with
    | .error e => .error e
    | .ok a => parseAdaptersY (dset acc role a) rest

/-- Processing of one `(key, cfg)` profile entry of `from_yaml` (lines
46-70).  First the adapter mapping is built (lines 47-63), then the
arguments of the `PipelineProfile(...)` call are evaluated left to right
(`cfg["label"]`, `cfg.get("pipelines", {}) or {}`, `cfg.get("hooks", {})
or {}`), and finally the dataclass call itself is checked against the
declared fields of `PipelineProfile`. -/
def parseProfileEntry (key : String) (cfg : Yaml) : Except PyErr PipelineProfileY :=
  match pyGet cfg "adapters" (.map []) with
  | .error e => .error e
  | .ok adRaw =>
    match pyItems adRaw with
    | .error e => .error e
    | .ok adItems =>
      match parseAdaptersY [] adItems with
      | .error e => .error e
      | .ok adapters =>
        match pyGetItem cfg "label" with
        | .error e => .error e
        | .ok labelv =>
          match pyGet cfg "pipelines" (.map []) with
          | .error e => .error e
          | .ok _pips =>
            match pyGet cfg "hooks" (.map []) with
            | .error e => .error e
            | .ok _hooks =>
              match dataclassCallErr pipelineProfileFields fromYamlProfileKwargs with
              | some e => .error e
              | none => .ok ⟨key, labelv, adapters⟩

/-- The `profiles[key] = PipelineProfile(...)` accumulation of
`from_yaml` (lines 45-70). -/
def parseProfileEntries (acc : List (String × PipelineProfileY)) :
    List (String × Yaml) → Except PyErr (List (String × PipelineProfileY))
  | [] => .ok acc
  | (k, cfg) :: rest =>
    match parseProfileEntry k cfg with
    | .error e => .error e
    | .ok p => parseProfileEntries (dset acc k p) rest

/-- Embeds `ProfileManager.from_yaml` (profile_manager.py lines 32-71)
applied to an already-`yaml.safe_load`ed document: `data =
yaml.safe_load(...) or {}`, `raw_profiles = data.get("profiles", {}) or
{}`, then the per-entry loop.  The result is the profile mapping the
constructed manager would hold. -/
def fromYamlProfiles (doc : Yaml) : Except PyErr (List (String × PipelineProfileY)) :=
  match pyGet (pyOr doc (.map [])) "profiles" (.map []) with
  | .error e => .error e
  | .ok profRaw =>
    match pyItems (pyOr profRaw (.map [])) with
    | .error e => .error e
    | .ok entries => parseProfileEntries [] entries

/-! ### Endpoint and role registries
(`common/registry/endpoint_registry.py`, `core/registry/capture_registry.py`
lines 37-94, `core/registry/watcher_registry.py` lines 15-41 — both role
registries have the identical shape). -/

/-- A Python class object as far as the registries observe it: its
`__name__` attribute and the names of the types it subclasses
(including itself), used for the `issubclass` check in `register`. -/
structure PyClass where
  nameAttr : String
  bases : List String
deriving DecidableEq, Repr

/-- A live adapter object.  `refId` models Python object identity:
`instantiate` hands out strictly increasing reference ids, so two
objects constructed by distinct calls are never `=`. -/
structure AdapterInstance where
  refId : Nat
  cls : PyClass
deriving DecidableEq, Repr

/-- State of one role registry: the class-level attributes `_registry`,
`_active_adapter` (called `_active` in `WatcherRegistry`) and
`_active_instance`, together with the declared `endpoint_base` and the
fresh-identity counter backing `instantiate`. -/
structure RegistryState where
  endpointBase : String
  registry : List (String × PyClass)
  active : Option String
  activeInstance : Option AdapterInstance
  nextRef : Nat
deriving DecidableEq, Repr

namespace EndpointRegistry

/-- Embeds `EndpointRegistry.register` (endpoint_registry.py): rejects a
class that does not subclass `endpoint_base` with `TypeError`, rejects a
name already bound unless `replace`, otherwise binds name to class. -/
def register (rs : RegistryState) (nm : String) (impl : PyClass)
    (replace : Bool) : Except PyErr RegistryState :=
  if !(impl.bases.contains rs.endpointBase) then
    .error (.typeError (impl.nameAttr ++ " must subclass " ++ rs.endpointBase))
  else if !replace && dhasKey nm rs.registry then
    .error (.keyError ("Endpoint '" ++ nm ++ "' already registered"))
  else .ok { rs with registry := dset rs.registry nm impl }

/-- Embeds `EndpointRegistry.get`: exact lookup, `KeyError` when the
name is unknown. -/
def get (rs : RegistryState) (nm : String) : Except PyErr PyClass :=
  match dlookup nm rs.registry with
  | some c => .ok c
  | none => .error (.keyError ("Unknown endpoint '" ++ nm ++ "'"))

/-- Embeds `EndpointRegistry.instantiate`: looks the class up and
constructs a new instance of it (a fresh object identity). -/
def instantiate (rs : RegistryState) (nm : String) :
    Except PyErr (AdapterInstance × RegistryState) :=
  match EndpointRegistry.get rs nm with
  | .error e => .error e
  | .ok c => .ok (⟨rs.nextRef, c⟩, { rs with nextRef := rs.nextRef + 1 })

/-- Embeds `EndpointRegistry.clear`: drops all registrations (and only
those — the active name and cached instance attributes are untouched). -/
def clear (rs : RegistryState) : RegistryState := { rs with registry := [] }

end EndpointRegistry

namespace RoleRegistry

/-- Embeds `CaptureRegistry.set_active` (capture_registry.py lines
50-63) / `WatcherRegistry.set_active`: `KeyError` when the name is not
registered; on success records the active name and discards any cached
instance.  The per-role message prefix ("Capture adapter" / "Watcher
adapter") is abstracted to "adapter". -/
def set_active (rs : RegistryState) (nm : String) : Except PyErr RegistryState :=
  if !(dhasKey nm rs.registry) then
    .error (.keyError ("adapter '" ++ nm ++ "' not registered."))
  else .ok { rs with active := some nm, activeInstance := none }

/-- Embeds `CaptureRegistry.get_active_class` (lines 65-75). -/
def get_active_class (rs : RegistryState) : Option PyClass :=
  match rs.active with
  | none => none
  | some nm => dlookup nm rs.registry

/-- Embeds `CaptureRegistry.get_active` (lines 77-91): `none` when no
active name is set, else the cached instance, lazily constructing and
caching it on first access. -/
def get_active (rs : RegistryState) :
    Except PyErr (Option AdapterInstance × RegistryState) :=
  match rs.active with
  | none => .ok (none, rs)
  | some nm =>
    match rs.activeInstance with
    | some inst => .ok (some inst, rs)
    | none =>
      match EndpointRegistry.instantiate rs nm with
      | .error e => .error e
      | .ok (inst, rs') => .ok (some inst, { rs' with activeInstance := some inst })

end RoleRegistry

/-- The process-wide `ROLE_REGISTRIES` table
(`core/registry/role_registries.py` line 18): role string to that
role's registry.  Roles absent from the list have no registry. -/
abbrev Registries : Type := List (String × RegistryState)

/-! ### Profile models and activation
(`core/profiles/profile_models.py`, `core/profiles/profile_manager.py`). -/

/-- Typed `PreflightConfig` (profile_models.py lines 11-23) as consumed
by the preflight engine: `required = none` means "use the check's
default". -/
structure PreflightConfig where
  id : String
  required : Option Bool
  params : List (String × Val)
deriving DecidableEq, Repr

/-- Typed `Adapter` binding of a profile (profile_models.py lines
26-40). -/
structure Adapter where
  name : String
  role : String
  overrides : List (String × Val)
  preflights : List PreflightConfig
deriving DecidableEq, Repr

/-- Typed `PipelineProfile` (profile_models.py lines 43-55): the
dataclass declares exactly `key`, `label` and `adapters`. -/
structure PipelineProfile where
  key : String
  label : String
  adapters : List (String × Adapter)
deriving DecidableEq, Repr

/-- The `ProfileManager` with its `_profiles` mapping
(profile_manager.py lines 20-30). -/
structure ProfileManager where
  profiles : List (String × PipelineProfile)
deriving DecidableEq, Repr

/-- Embeds `ProfileManager.get` (profile_manager.py lines 82-97). -/
def ProfileManager.get (m : ProfileManager) (key : String) :
    Except PyErr PipelineProfile :=
  match dlookup key m.profiles with
  | some p => .ok p
  | none => .error (.keyError ("Unknown profile '" ++ key ++ "'"))

/-- The `for role, adapter in profile.adapters.items()` loop of
`ProfileManager.activate` (profile_manager.py lines 113-117): a role
without a registry is skipped (`continue`); otherwise
`registry.set_active(adapter.name)` runs.  A `KeyError` raised by
`set_active` propagates immediately, and — the registries being global
mutable state — every mutation made by earlier iterations stands, so
the function returns the registries as mutated so far together with
the escaped exception, if any. -/
def activateBindings : List (String × Adapter) → Registries →
    Registries × Option PyErr
  | [], regs => (regs, none)
  | (role, ad) :: rest, regs =>
    match dlookup role regs with
    | none => activateBindings rest regs
    | some rs =>
      match RoleRegistry.set_active rs ad.name with
      | .error e => (regs, some e)
      | .ok rs' => activateBindings rest (dset regs role rs')

/-- Embeds `ProfileManager.activate` (profile_manager.py lines 99-119):
looks the profile up (`KeyError` if unknown), applies each role binding
through the role's registry, and returns the profile object. -/
def ProfileManager.activate (m : ProfileManager) (key : String)
    (regs : Registries) : Registries × Except PyErr PipelineProfile :=
  match ProfileManager.get m key with
  | .error e => (regs, .error e)
  | .ok p =>
    match activateBindings p.adapters regs with
    | (regs', none) => (regs', .ok p)
    | (regs', some e) => (regs', .error e)

/-! ### Profile override resolution
(`core/profiles/profile_injector.py`, `resolve_capture_profile`,
lines 35-71). -/

/-- The `ResolvedCaptureProfile` dataclass (profile_injector.py lines
13-24). -/
structure ResolvedCaptureProfile where
  profile : Option PipelineProfile
  overrides : List (String × Val)
deriving DecidableEq, Repr

/-- Embeds `resolve_capture_profile` (profile_injector.py lines 35-71):
with a falsy profile key the caller overrides are returned unchanged
and no registry is touched; otherwise the profile is activated (a
raised error propagates together with the partially mutated
registries), the binding's overrides form the base, and the caller
overrides are merged on top, winning on conflicts. -/
def resolve_capture_profile (m : ProfileManager) (role : String)
    (profile_key : Option String) (overrides : Option (List (String × Val)))
    (regs : Registries) : Registries × Except PyErr ResolvedCaptureProfile :=
  let incoming := overrides.getD []
  match profile_key with
  | none => (regs, .ok ⟨none, incoming⟩)
  | some k =>
    if k == "" then (regs, .ok ⟨none, incoming⟩)
    else
      match ProfileManager.activate m k regs with
      | (regs', .error e) => (regs', .error e)
      | (regs', .ok p) =>
        let base : List (String × Val) :=
          match dlookup role p.adapters with
          | some ad => dupdate [] ad.overrides
          | none => []
        (regs', .ok ⟨some p, dupdate base incoming⟩)

/-! ### Event bus (`core/events/bus.py`, `core/events/topics.py`). -/

/-- The `manifest.updated` topic constant (topics.py line 52). -/
def MANIFEST_UPDATED : String := "manifest.updated"

/-- The `capture.started` topic constant (topics.py line 29). -/
def CAPTURE_STARTED : String := "capture.started"

/-- A subscriber callable.  `ref` models its Python object identity;
`run` its behaviour on a payload — `some e` when the call raises `e`,
`none` when it returns normally. -/
structure BusHandler where
  ref : Nat
  run : List (String × Val) → Option PyErr

/-- The bus with its `_subs: Dict[str, List[Subscriber]]` table
(bus.py lines 19-21). -/
structure EventBus where
  subs : List (String × List BusHandler)

/-- Embeds `EventBus.subscribe` (bus.py lines 23-40): appends the
handler to the topic's list (`defaultdict(list)` creates the entry on
first use). -/
def EventBus.subscribe (bus : EventBus) (topic : String) (fn : BusHandler) :
    EventBus :=
  ⟨dset bus.subs topic ((dlookup topic bus.subs).getD [] ++ [fn])⟩

/-- The `for fn in subs` loop of `EventBus.publish` (bus.py lines
60-66).  Each call sits inside `try: fn(payload) except Exception:
logger.exception(...)`, so a raising handler is logged and the loop
continues; an exception that escaped the loop would abort the remaining
calls and propagate (second component), which the `except` prevents.
Returns the handlers invoked, in call order. -/
def publishLoop : List BusHandler → List (String × Val) →
    List Nat × Option PyErr
  | [], _ => ([], none)
  | fn :: rest, payload =>
    match fn.run payload with
    | some _e =>
      match publishLoop rest payload with
      | (ids, esc) => (fn.ref :: ids, esc)
    | none =>
      match publishLoop rest payload with
      | (ids, esc) => (fn.ref :: ids, esc)

/-- Embeds `EventBus.publish` (bus.py lines 42-66): snapshots the
topic's subscriber list (`list(self._subs.get(topic, ()))`) and invokes
each handler in order. -/
def EventBus.publish (bus : EventBus) (topic : String)
    (payload : List (String × Val)) : List Nat × Option PyErr :=
  publishLoop ((dlookup topic bus.subs).getD []) payload

/-! ### Preflight engine
(`core/preflights/preflight_types.py`, `preflight_registry.py`,
`preflight_engine.py`). -/

/-- The `PreflightFailure` dataclass (preflight_types.py lines 34-46). -/
structure PreflightFailure where
  id : String
  message : String
  required : Bool
deriving DecidableEq, Repr

/-- The `PreflightContext` dataclass (preflight_types.py lines 15-31).
`adapter` is the live adapter instance, observed by its reference id. -/
structure PreflightContext where
  role : String
  settings : List (String × Val)
  adapter : Nat
  session_id : Option String
  profile_key : Option String
deriving DecidableEq, Repr

/-- A registered check, per the `PreflightCheck` protocol
(preflight_types.py lines 49-76): an id, the declared
`default_required`, the optional adapter scope, and the `__call__`
behaviour. -/
structure PreflightCheck where
  id : String
  role : String
  default_required : Bool
  adapter_name : Option String
  run : PreflightContext → Option PreflightFailure

/-- The `PreflightRegistry._checks` table: role to (check id to check)
(preflight_registry.py lines 19-27). -/
abbrev ChecksTable : Type := List (String × List (String × PreflightCheck))

/-- Embeds `PreflightRegistry.get` (preflight_registry.py lines 43-61):
`KeyError` with a descriptive message when the role or the id is
unknown. -/
def PreflightRegistry.get (checks : ChecksTable) (role : String)
    (id : String) : Except PyErr PreflightCheck :=
  match dlookup role checks with
  | none => .error (.keyError ("Unknown preflight '" ++ id ++ "' for role '" ++ role ++ "'"))
  | some byId =>
    match dlookup id byId with
    | none => .error (.keyError ("Unknown preflight '" ++ id ++ "' for role '" ++ role ++ "'"))
    | some c => .ok c

/-- Optional variant of the check lookup, used to phrase resolvability
hypotheses. -/
def checksFind (checks : ChecksTable) (role : String) (id : String) :
    Option PreflightCheck :=
  match dlookup role checks with
  | none => none
  | some byId => dlookup id byId

/-- The `for pf_cfg in adapter_cfg.preflights` loop of `run_preflights`
(preflight_engine.py lines 56-80): resolve the check (a `KeyError`
propagates), merge base settings with the check's params (params win),
invoke the check, and on failure resolve its `required` flag from the
profile override, else the check's declared default, accumulating every
failure in order. -/
def runPreflightConfigs (checks : ChecksTable) (role : String)
    (profileKey : String) (adapter : Nat) (base : List (String × Val))
    (session_id : Option String) :
    List PreflightConfig → Except PyErr (List PreflightFailure)
  | [] => .ok []
  | cfg :: rest =>
    match PreflightRegistry.get checks role cfg.id with
    | .error e => .error e
    | .ok check =>
      let ctx : PreflightContext :=
        ⟨role, dupdate base cfg.params, adapter, session_id, some profileKey⟩
      match check.run ctx with
      | none => runPreflightConfigs checks role profileKey adapter base session_id rest
      | some f =>
        match runPreflightConfigs checks role profileKey adapter base session_id rest with
        | .error e => .error e
        | .ok tail =>
          .ok ({ f with required := cfg.required.getD check.default_required } :: tail)

/-- Embeds `run_preflights` (preflight_engine.py lines 18-82): empty
result without a profile or without a binding for the role, else the
per-config loop. -/
def run_preflights (checks : ChecksTable) (role : String)
    (profile : Option PipelineProfile) (adapter : Nat)
    (base_settings : List (String × Val)) (session_id : Option String) :
    Except PyErr (List PreflightFailure) :=
  match profile with
  | none => .ok []
  | some p =>
    match dlookup role p.adapters with
    | none => .ok []
    | some adapter_cfg =>
      runPreflightConfigs checks role p.key adapter base_settings session_id
        adapter_cfg.preflights

/-- Declarative description of the failure list produced by a run of
the engine, written from the spec's words ("if the check returns a
failure, resolves its required flag as: profile-supplied override if
present, else the check's own declared default; accumulates all
failures, does not short-circuit"), for comparison with the embedded
loop. -/
def preflightFailuresSpec (checks : ChecksTable) (role : String)
    (profileKey : String) (adapter : Nat) (base : List (String × Val))
    (session_id : Option String) (cs : List PreflightConfig) :
    List PreflightFailure :=
  cs.filterMap (fun cfg =>
    match checksFind checks role cfg.id with
    | none => none
    | some check =>
      match check.run ⟨role, dupdate base cfg.params, adapter, session_id, some profileKey⟩ with
      | none => none
      | some f => some { f with required := cfg.required.getD check.default_required })

/-! ### Capture service start
(`modules/capture/services.py`, `CaptureService.start`, lines 112-230;
`core/services/base_service.py` for `_get_configured_adapter`;
`modules/capture/state.py` for `CaptureState`). -/

/-- The `CaptureState` dataclass (state.py lines 30-63).  The
`time.time()` stamp is modelled by the `now` argument of `start`. -/
structure CaptureState where
  session_id : Option String
  scene : Option String
  profile : Option String
  is_recording : Bool
  started_ts : Option Nat
  notes : List String
deriving DecidableEq, Repr

/-- Embeds `CaptureState.start` (state.py lines 49-59). -/
def CaptureState.start (st : CaptureState) (session_id : String) (now : Nat) :
    CaptureState :=
  { st with session_id := some session_id, is_recording := true,
            started_ts := some now }

/-- The live capture adapter as the service drives it: its reference id
(handed to preflight contexts) and the outcome of each operation the
`start` path invokes — `some e` models the call raising `e`. -/
structure CaptureAdapter where
  ref : Nat
  configure : List (String × Val) → Option PyErr
  select_scene : Val → Option PyErr
  select_profile : Val → Option PyErr
  start_capture : Option PyErr

/-- The capture service: `asdict(self._settings)` (the typed
`CaptureSettingsModel` flattened), the registry's `get_active()` result,
and the runtime state. -/
structure CaptureService where
  settings : List (String × Val)
  activeAdapter : Option CaptureAdapter
  state : CaptureState

/-- Outcome of one `start` call: the raised error or normal return, the
events published on the bus by the call (topic and payload, in publish
order), and the resulting runtime state. -/
structure StartOutcome where
  result : Except PyErr Unit
  events : List (String × List (String × Val))
  state : CaptureState

/-- Embeds `BaseService._get_configured_adapter` (base_service.py lines
104-142): `RuntimeError` when the registry has no active adapter, else
`adapter.configure(settings ∪ overrides, {})` (a raised error
propagates) and the adapter is returned. -/
def getConfiguredAdapter (svc : CaptureService)
    (overrides : List (String × Val)) : Except PyErr CaptureAdapter :=
  match svc.activeAdapter with
  | none => .error (.runtimeError "No active adapter configured for 'capture'.")
  | some a =>
    match a.configure (dupdate svc.settings overrides) with
    | some e => .error e
    | none => .ok a

/-- Models the Python `or` chain choosing the scene / profile
(services.py lines 181-190): first truthy operand wins. -/
def valOr (a b : Val) : Val := if a.truthy then a else b

/-- The aggregated message raised when required preflight failures are
present (services.py lines 161-164): `"Preflight failed: " + "; "
.join(f"{f.id}: {f.message}" for f in required_failures)`. -/
def captureStartMsg (req : List PreflightFailure) : String :=
  "Preflight failed: " ++ joinSep "; " (req.map (fun f => f.id ++ ": " ++ f.message))

/-- The part of `CaptureService.start` after the preflight gate
(services.py lines 171-230): the already-recording early return, scene
and profile selection (the `except` re-raises), `start_capture`, state
update and persistence, and the `manifest.updated` publish. -/
def startAfterPreflight (svc : CaptureService) (adapter : CaptureAdapter)
    (cfg : List (String × Val)) (session_id : String)
    (scene profile : Option String) (pipeline_profile : Option PipelineProfile)
    (now : Nat) : StartOutcome :=
  if svc.state.is_recording then ⟨.ok (), [], svc.state⟩
  else
    let sceneArg : Val := match scene with | some s => .vStr s | none => .vNone
    let profArg : Val := match profile with | some s => .vStr s | none => .vNone
    let chosen_scene :=
      valOr (valOr sceneArg ((dlookup "default_scene" cfg).getD .vNone))
        ((dlookup "default_scene" svc.settings).getD .vNone)
    let chosen_profile :=
      valOr (valOr profArg ((dlookup "default_profile" cfg).getD .vNone))
        ((dlookup "default_profile" svc.settings).getD .vNone)
    let selErr : Option PyErr :=
      match (if chosen_scene.truthy then adapter.select_scene chosen_scene else none) with
      | some e => some e
      | none => if chosen_profile.truthy then adapter.select_profile chosen_profile else none
    match selErr with
    | some e => ⟨.error e, [], svc.state⟩
    | none =>
      match adapter.start_capture with
      | some e => ⟨.error e, [], svc.state⟩
      | none =>
        ⟨.ok (),
         [(MANIFEST_UPDATED,
           [("session_id", .vStr session_id),
            ("event", .vStr "capture.start"),
            ("profile_key",
             match pipeline_profile with
             | some p => .vStr p.key
             | none => .vNone)])],
         svc.state.start session_id now⟩

/-- Embeds `CaptureService.start` (services.py lines 112-230): the
empty-session-id guard, the merged config (`asdict(self._settings)`,
then `session_id`, then the caller overrides), adapter resolution and
configuration, the preflight run, the required/soft partition with the
aggregated abort, and the post-gate path. -/
def CaptureService.start (svc : CaptureService) (checks : ChecksTable)
    (session_id : String) (scene profile : Option String)
    (overrides : Option (List (String × Val)))
    (pipeline_profile : Option PipelineProfile) (now : Nat) : StartOutcome :=
  if session_id == "" then ⟨.error (.valueError "session_id is required"), [], svc.state⟩
  else
    let cfg := dupdate (dset svc.settings "session_id" (.vStr session_id))
      (overrides.getD [])
    match getConfiguredAdapter svc cfg with
    | .error e => ⟨.error e, [], svc.state⟩
    | .ok adapter =>
      match run_preflights checks "capture" pipeline_profile adapter.ref cfg
          (some session_id) with
      | .error e => ⟨.error e, [], svc.state⟩
      | .ok failures =>
        let required_failures := failures.filter (fun f => f.required)
        if required_failures.isEmpty then
          startAfterPreflight svc adapter cfg session_id scene profile
            pipeline_profile now
        else
          ⟨.error (.runtimeError (captureStartMsg required_failures)), [], svc.state⟩

/-! ### Plugin bootstrap registration
(`core/registry/base_loader.py` lines 11-105,
`core/bootstrap/loaders.py`, `PluginsLoader.on_load`, lines 64-84). -/

/-- The `PluginDescriptor` dataclass (base_loader.py lines 11-33). -/
structure PluginDescriptor where
  name : String
  role : String
  module : String
  clazz : String
  version : String
  requires_api : String
  capabilities : List String
  source : String
deriving DecidableEq, Repr

/-- The importable world: (module path, attribute name) to the class it
resolves to; absence models `ImportError` / `AttributeError` from
`importlib.import_module` / `getattr`. -/
abbrev ImportTable : Type := List ((String × String) × PyClass)

/-- Models `str.replace("-", "_")` on the module path. -/
def dashToUnderscore (s : String) : String :=
  String.mk (s.data.map (fun c => if c = '-' then '_' else c))

/-- ASCII lowercasing of one character, as `str.lower()` acts on the
identifiers appearing in descriptors and class names. -/
def lowerChar (c : Char) : Char :=
  if c.isUpper then Char.ofNat (c.toNat + 32) else c

/-- Models `str.lower()` on ASCII identifier strings. -/
def lowerStr (s : String) : String :=
  String.mk (s.data.map lowerChar)

/-- The module path built by import_adapter_from_descriptor
(base_loader.py lines 94-98):
`f"{pkg_root}.plugins.{descriptor.name}.{descriptor.module}".replace("-", "_")`. -/
def descriptorModPath (pkg_root : String) (d : PluginDescriptor) : String :=
  dashToUnderscore (pkg_root ++ ".plugins." ++ d.name ++ "." ++ d.module)

/-- Embeds import_adapter_from_descriptor (base_loader.py lines
80-105): resolve the module path and the named class, wrapping a failed
resolution into a descriptive error naming the attempted locator. -/
def loadAdapterFromDescriptor (imports : ImportTable) (d : PluginDescriptor)
    (pkg_root : String) : Except PyErr PyClass :=
  match dlookup (descriptorModPath pkg_root d, d.clazz) imports with
  | some c => .ok c
  | none =>
    .error (.loadError ("Failed to import " ++ d.clazz ++ " from " ++
      descriptorModPath pkg_root d))

/-- The `for d in descriptors` loop of `PluginsLoader.on_load`
(loaders.py lines 73-82): resolve the class, register it under
`clazz.__name__.lower()` into the registry for `descriptor.role`; a
role without a registry is logged and skipped (`continue`).  An
exception escaping the loop (failed resolution, or `register` raising)
propagates with the registries as mutated so far. -/
def pluginsOnLoadGo (imports : ImportTable) :
    List PluginDescriptor → Registries → Registries × Option PyErr
  | [], regs => (regs, none)
  | d :: rest, regs =>
    match loadAdapterFromDescriptor imports d "trivox_conductor" with
    | .error e => (regs, some e)
    | .ok clazz =>
      match dlookup d.role regs with
      | none => pluginsOnLoadGo imports rest regs
      | some rs =>
        match EndpointRegistry.register rs (lowerStr clazz.nameAttr) clazz false with
        | .error e => (regs, some e)
        | .ok rs' => pluginsOnLoadGo imports rest (dset regs d.role rs')

/-- The `reg.clear()` pass over `ROLE_REGISTRIES.values()` at the top
of `PluginsLoader.on_load` (loaders.py lines 66-68). -/
def clearAll (regs : Registries) : Registries :=
  regs.map (fun p => (p.1, EndpointRegistry.clear p.2))

/-- Embeds `PluginsLoader.on_load` (loaders.py lines 64-84): clear all
role registries, then process each loaded descriptor. -/
def PluginsLoader.on_load (imports : ImportTable)
    (descriptors : List PluginDescriptor) (regs : Registries) :
    Registries × Option PyErr :=
  pluginsOnLoadGo imports descriptors (clearAll regs)

/-! ### Concrete fixtures used by witnesses and counterexamples -/

/-- A registered OBS capture adapter class. -/
def obsCls : PyClass := ⟨"OBSAdapter", ["CaptureAdapter"]⟩

/-- A second registered capture adapter class. -/
def altCls : PyClass := ⟨"AltCaptureAdapter", ["CaptureAdapter"]⟩

/-- A registered replay watcher adapter class. -/
def replayCls : PyClass := ⟨"ReplayWatcherAdapter", ["WatcherAdapter"]⟩

/-- Capture binding to the "obs" adapter. -/
def adObs : Adapter := ⟨"obs", "capture", [], []⟩

/-- Capture binding to the "alt" adapter. -/
def adAlt : Adapter := ⟨"alt", "capture", [], []⟩

/-- Watcher binding naming an adapter that is never registered. -/
def adGhost : Adapter := ⟨"ghost", "watcher", [], []⟩

/-- Profile P of the activation scenario: capture bound to "obs". -/
def profP : PipelineProfile := ⟨"p", "Profile P", [("capture", adObs)]⟩

/-- Profile Q of the activation scenario: capture bound to "alt", plus a
binding for a role that has no registry. -/
def profQ : PipelineProfile :=
  ⟨"q", "Profile Q", [("capture", adAlt), ("colorx", ⟨"x", "colorx", [], []⟩)]⟩

/-- Manager holding the two activation-scenario profiles. -/
def mgrW : ProfileManager := ⟨[("p", profP), ("q", profQ)]⟩

/-- Role registries before any activation: one capture registry with
both adapter classes registered, none active. -/
def regsW : Registries :=
  [("capture", ⟨"CaptureAdapter", [("obs", obsCls), ("alt", altCls)], none, none, 0⟩)]

/-- Registries after activating profile P. -/
def regs1W : Registries :=
  [("capture", ⟨"CaptureAdapter", [("obs", obsCls), ("alt", altCls)], some "obs", none, 0⟩)]

/-- Registries after activating profile Q. -/
def regs2W : Registries :=
  [("capture", ⟨"CaptureAdapter", [("obs", obsCls), ("alt", altCls)], some "alt", none, 0⟩)]

/-- Caller-supplied overrides of the merge scenario. -/
def oW : List (String × Val) := [("b", .vInt 3), ("c", .vInt 4)]

/-- Profile-binding overrides of the merge scenario. -/
def bW : List (String × Val) := [("a", .vInt 1), ("b", .vInt 2)]

/-- Capture binding carrying the profile overrides of the merge
scenario. -/
def adObsOv : Adapter := ⟨"obs", "capture", bW, []⟩

/-- Profile of the merge scenario. -/
def profOv : PipelineProfile := ⟨"ov", "Override profile", [("capture", adObsOv)]⟩

/-- Manager of the merge scenario. -/
def mgrOv : ProfileManager := ⟨[("ov", profOv)]⟩

/-- A capture preflight check that always fails and declares
`default_required = True`, mirroring `DiskSpaceCheck` from
`modules/capture/preflights.py`. -/
def checkHard : PreflightCheck :=
  ⟨"capture.disk_space", "capture", true, none,
   fun _ => some ⟨"capture.disk_space", "low disk", true⟩⟩

/-- Check table holding the failing disk-space check. -/
def checksW : ChecksTable := [("capture", [("capture.disk_space", checkHard)])]

/-- Capture binding configuring the same check twice: once with a
profile override `required: false`, once with no override. -/
def adC6 : Adapter :=
  ⟨"obs", "capture", [],
   [⟨"capture.disk_space", some false, []⟩, ⟨"capture.disk_space", none, []⟩]⟩

/-- Profile of the preflight-resolution scenario. -/
def profC6 : PipelineProfile := ⟨"c6", "C6", [("capture", adC6)]⟩

/-- A live capture adapter whose operations all succeed. -/
def adW2 : CaptureAdapter := ⟨0, fun _ => none, fun _ => none, fun _ => none, none⟩

/-- Capture runtime state with no recording in progress. -/
def stateW2 : CaptureState := ⟨none, none, none, false, none, []⟩

/-- Capture service with empty settings, the healthy adapter active and
nothing recording. -/
def svcW2 : CaptureService := ⟨[], some adW2, stateW2⟩

/-- Profile of the abort scenario: the always-failing disk-space check
configured with no override, so its `default_required = True` governs. -/
def profC2 : PipelineProfile :=
  ⟨"c2", "C2", [("capture", ⟨"obs", "capture", [], [⟨"capture.disk_space", none, []⟩]⟩)]⟩

/-- Import table of the bootstrap scenario: the OBS capture plugin and
a plugin whose role has no registry. -/
def xCls : PyClass := ⟨"XAdapter", ["ColorAdapter"]⟩

/-- Importable classes of the bootstrap scenario. -/
def bootImports : ImportTable :=
  [(("trivox_conductor.plugins.capture_obs.adapter", "OBSAdapter"), obsCls),
   (("trivox_conductor.plugins.color_x.adapter", "XAdapter"), xCls)]

/-- Descriptor of the OBS capture plugin, as in the repository's
`plugins/capture_obs` example (descriptor name `capture_obs`, class
`OBSAdapter`). -/
def obsDescriptor : PluginDescriptor :=
  ⟨"capture_obs", "capture", "adapter", "OBSAdapter", "0.0.0", ">=1.0,<2.0", [], "local"⟩

/-- Descriptor whose role has no registry in the role table. -/
def ghostDescriptor : PluginDescriptor :=
  ⟨"color_x", "colorx", "adapter", "XAdapter", "0.0.0", ">=1.0,<2.0", [], "local"⟩

/-- Role registries at bootstrap: an empty capture registry. -/
def bootRegs : Registries := [("capture", ⟨"CaptureAdapter", [], none, none, 0⟩)]

/-- Role registries after the bootstrap registration step. -/
def finalBootRegs : Registries :=
  [("capture", ⟨"CaptureAdapter", [("obsadapter", obsCls)], none, none, 0⟩)]

/-- Profile binding capture to a registered name and watcher to an
unregistered one, for the partial-activation scenario. -/
def profBad : PipelineProfile := ⟨"bad", "Bad", [("capture", adObs), ("watcher", adGhost)]⟩

/-- Manager holding the partial-activation profile. -/
def mgrW9 : ProfileManager := ⟨[("bad", profBad)]⟩

/-- The watcher registry of the partial-activation scenario. -/
def watcherRSW9 : RegistryState :=
  ⟨"WatcherAdapter", [("replay", replayCls)], none, none, 0⟩

/-- Registries before the partial activation. -/
def regsW9 : Registries :=
  [("capture", ⟨"CaptureAdapter", [("obs", obsCls)], none, none, 0⟩),
   ("watcher", watcherRSW9)]

/-- Registries after the capture binding activated and before the
watcher binding fails. -/
def regs1W9 : Registries :=
  [("capture", ⟨"CaptureAdapter", [("obs", obsCls)], some "obs", none, 0⟩),
   ("watcher", watcherRSW9)]

/-! ### Lemmas about the Python dict embedding -/

theorem mem_dkeys_of_dlookup {κ α : Type} [DecidableEq κ] {k : κ}
    {d : List (κ × α)} {v : α} (h : dlookup k d = some v) : k ∈ dkeys d := by
  induction d with
  | nil => simp [dlookup] at h
  | cons p rest ih =>
    obtain ⟨k1, v1⟩ := p
    by_cases h1 : k1 = k
    · simp only [dkeys, List.map_cons, List.mem_cons]
      exact Or.inl h1.symm
    · simp only [dlookup, if_neg h1] at h
      simp only [dkeys, List.map_cons, List.mem_cons]
      exact Or.inr (ih h)

theorem dlookup_not_mem_dkeys {κ α : Type} [DecidableEq κ] {k : κ}
    {d : List (κ × α)} (h : k ∉ dkeys d) : dlookup k d = none := by
  cases hr : dlookup k d with
  | none => rfl
  | some w => exact absurd (mem_dkeys_of_dlookup hr) h

theorem dsetEntry_fst_eq {κ α : Type} [DecidableEq κ]
    (k k1 : κ) (v v1 : α) (h : k1 = k) :
    dsetEntry k v (k1, v1) = (k, v) := by
  simp [dsetEntry, h]

theorem dsetEntry_fst_ne {κ α : Type} [DecidableEq κ]
    (k k1 : κ) (v v1 : α) (h : k1 ≠ k) :
    dsetEntry k v (k1, v1) = (k1, v1) := by
  simp [dsetEntry, h]

theorem dlookup_map_replaceKey {κ α : Type} [DecidableEq κ]
    (d : List (κ × α)) (k : κ) (v : α) (r : κ) (h : k ≠ r) :
    dlookup r (d.map (dsetEntry k v)) = dlookup r d := by
  induction d with
  | nil => rfl
  | cons p rest ih =>
    obtain ⟨k1, v1⟩ := p
    by_cases hk : k1 = k
    · subst hk
      rw [List.map_cons, dsetEntry_fst_eq _ _ _ _ rfl]
      simp [dlookup, h, ih]
    · rw [List.map_cons, dsetEntry_fst_ne _ _ _ _ hk]
      simp [dlookup, ih]

theorem map_replaceKey_not_mem {κ α : Type} [DecidableEq κ]
    (d : List (κ × α)) (k : κ) (v : α) (h : k ∉ dkeys d) :
    d.map (dsetEntry k v) = d := by
  induction d with
  | nil => rfl
  | cons p rest ih =>
    obtain ⟨k1, v1⟩ := p
    simp only [dkeys, List.map_cons, List.mem_cons] at h
    push_neg at h
    have h1 : k1 ≠ k := fun hh => h.1 hh.symm
    rw [List.map_cons, dsetEntry_fst_ne _ _ _ _ h1, ih h.2]

theorem dkeys_map_replaceKey {κ α : Type} [DecidableEq κ]
    (d : List (κ × α)) (k : κ) (v : α) :
    dkeys (d.map (dsetEntry k v)) = dkeys d := by
  induction d with
  | nil => rfl
  | cons p rest ih =>
    obtain ⟨k1, v1⟩ := p
    by_cases hk : k1 = k
    · subst hk
      rw [List.map_cons, dsetEntry_fst_eq _ _ _ _ rfl]
      simp only [dkeys, List.map_cons] at ih ⊢
      rw [ih]
    · rw [List.map_cons, dsetEntry_fst_ne _ _ _ _ hk]
      simp only [dkeys, List.map_cons] at ih ⊢
      rw [ih]

theorem dset_cons_ne {κ α : Type} [DecidableEq κ]
    (d : List (κ × α)) (k0 k : κ) (v0 v : α) (h : k0 ≠ k) :
    dset ((k0, v0) :: d) k v = (k0, v0) :: dset d k v := by
  simp only [dset, dhasKey, dlookup, if_neg h]
  by_cases hm : (dlookup k d).isSome
  · rw [if_pos hm, if_pos hm, List.map_cons, dsetEntry_fst_ne _ _ _ _ h]
  · rw [if_neg hm, if_neg hm, List.cons_append]

theorem dset_cons_eq {κ α : Type} [DecidableEq κ]
    (d : List (κ × α)) (k : κ) (v0 v : α) :
    dset ((k, v0) :: d) k v = (k, v) :: d.map (dsetEntry k v) := by
  simp only [dset, dhasKey, dlookup, if_pos rfl]
  rw [if_pos (by simp), List.map_cons, dsetEntry_fst_eq _ _ _ _ rfl]

theorem dlookup_dset {κ α : Type} [DecidableEq κ]
    (d : List (κ × α)) (k : κ) (v : α) (r : κ) :
    dlookup r (dset d k v) = if k = r then some v else dlookup r d := by
  induction d with
  | nil => simp [dset, dhasKey, dlookup]
  | cons p rest ih =>
    obtain ⟨k0, v0⟩ := p
    by_cases hk : k0 = k
    · subst hk
      rw [dset_cons_eq]
      by_cases hr : k0 = r
      · subst hr
        simp [dlookup]
      · simp only [dlookup, if_neg hr]
        rw [dlookup_map_replaceKey rest k0 v r hr]
    · rw [dset_cons_ne _ _ _ _ _ hk]
      by_cases hr : k0 = r
      · subst hr
        have hkr : k ≠ k0 := fun hh => hk hh.symm
        simp [dlookup, hkr]
      · simp [dlookup, hr, ih]

theorem dkeys_dset_mem {κ α : Type} [DecidableEq κ]
    (d : List (κ × α)) (k : κ) (v : α) (h : dhasKey k d = true) :
    dkeys (dset d k v) = dkeys d := by
  simp only [dset, if_pos h]
  exact dkeys_map_replaceKey d k v

theorem dset_self {κ α : Type} [DecidableEq κ]
    (d : List (κ × α)) (k : κ) (v : α)
    (hnd : (dkeys d).Nodup) (h : dlookup k d = some v) :
    dset d k v = d := by
  induction d with
  | nil => simp [dlookup] at h
  | cons p rest ih =>
    obtain ⟨k0, v0⟩ := p
    simp only [dkeys, List.map_cons, List.nodup_cons] at hnd
    by_cases hk : k0 = k
    · subst hk
      have hv : v0 = v := by simpa [dlookup] using h
      subst hv
      rw [dset_cons_eq, map_replaceKey_not_mem rest k0 v0 hnd.1]
    · rw [dset_cons_ne _ _ _ _ _ hk]
      simp only [dlookup, if_neg hk] at h
      rw [ih hnd.2 h]

theorem dlookup_dupdate_none {κ α : Type} [DecidableEq κ]
    (o d : List (κ × α)) (k : κ) (h : dlookup k o = none) :
    dlookup k (dupdate d o) = dlookup k d := by
  induction o generalizing d with
  | nil => rfl
  | cons p rest ih =>
    obtain ⟨k0, v0⟩ := p
    simp only [dlookup] at h
    by_cases hk : k0 = k
    · simp [if_pos hk] at h
    · simp only [if_neg hk] at h
      show dlookup k (dupdate (dset d k0 v0) rest) = dlookup k d
      rw [ih _ h, dlookup_dset, if_neg hk]

theorem dlookup_dupdate {κ α : Type} [DecidableEq κ]
    (o d : List (κ × α)) (k : κ) (hnd : (dkeys o).Nodup) :
    dlookup k (dupdate d o) =
      match dlookup k o with
      | some v => some v
      | none => dlookup k d := by
  induction o generalizing d with
  | nil => rfl
  | cons p rest ih =>
    obtain ⟨k0, v0⟩ := p
    simp only [dkeys, List.map_cons, List.nodup_cons] at hnd
    by_cases hk : k0 = k
    · subst hk
      have hrest : dlookup k0 rest = none := dlookup_not_mem_dkeys hnd.1
      show dlookup k0 (dupdate (dset d k0 v0) rest) =
        match dlookup k0 ((k0, v0) :: rest) with
        | some v => some v
        | none => dlookup k0 d
      rw [dlookup_dupdate_none _ _ _ hrest, dlookup_dset]
      simp [dlookup]
    · show dlookup k (dupdate (dset d k0 v0) rest) =
        match dlookup k ((k0, v0) :: rest) with
        | some v => some v
        | none => dlookup k d
      rw [ih _ hnd.2]
      simp only [dlookup, if_neg hk]
      cases dlookup k rest with
      | some w => rfl
      | none => rw [dlookup_dset, if_neg hk]

/-! ### Lemmas about string joining and containment -/

theorem strContainsSub_append_left (s m x : String) (h : strContainsSub m x) :
    strContainsSub (s ++ m) x := by
  obtain ⟨pre, post, hp⟩ := h
  exact ⟨s.data ++ pre, post, by simp [String.data_append, hp, List.append_assoc]⟩

theorem joinSep_mem (sep : String) (l : List String) (x : String) (hx : x ∈ l) :
    strContainsSub (joinSep sep l) x := by
  induction l with
  | nil => cases hx
  | cons y rest ih =>
    cases rest with
    | nil =>
      have hxy : x = y := by simpa using hx
      subst hxy
      exact ⟨[], [], by simp [joinSep]⟩
    | cons z rest2 =>
      rcases List.mem_cons.mp hx with h1 | h2
      · subst h1
        exact ⟨[], (sep ++ joinSep sep (z :: rest2)).data, by
          simp [joinSep, String.data_append, List.append_assoc]⟩
      · obtain ⟨pre, post, hp⟩ := ih h2
        exact ⟨(y ++ sep).data ++ pre, post, by
          simp [joinSep, String.data_append, hp, List.append_assoc]⟩

/-! ### The profile parse path of `from_yaml` (claim C1) -/

theorem dataclassCallErr_pipelineProfile :
    dataclassCallErr pipelineProfileFields fromYamlProfileKwargs =
      some (.typeError "__init__() got an unexpected keyword argument 'pipelines'") := rfl

theorem parseProfileEntry_no_ok (k : String) (cfg : Yaml) (p : PipelineProfileY) :
    parseProfileEntry k cfg ≠ .ok p := by
  intro h
  unfold parseProfileEntry at h
  rw [dataclassCallErr_pipelineProfile] at h
  repeat' split at h
  all_goals simp_all

theorem fromYamlProfiles_error_on_nonempty (doc profRaw : Yaml)
    (e0 : String × Yaml) (rest : List (String × Yaml))
    (hprof : pyGet (pyOr doc (.map [])) "profiles" (.map []) = .ok profRaw)
    (hitems : pyItems (pyOr profRaw (.map [])) = .ok (e0 :: rest)) :
    ∃ err, fromYamlProfiles doc = .error err := by
  obtain ⟨k0, cfg0⟩ := e0
  unfold fromYamlProfiles
  simp only [hprof, hitems]
  cases h2 : parseProfileEntry k0 cfg0 with
  | error e => exact ⟨e, by simp [parseProfileEntries, h2]⟩
  | ok p => exact absurd h2 (parseProfileEntry_no_ok k0 cfg0 p)

/-- C1: claimed that `ProfileManager.from_yaml` parses every profile
document with at least one profile entry into `PipelineProfile` values
carrying `pipelines` and `hooks` fields without raising.  The code
contradicts itself: `from_yaml` passes `pipelines=` and `hooks=` keyword
arguments, but the `PipelineProfile` dataclass declares only `key`,
`label` and `adapters`, so the call raises `TypeError` on the very
first profile entry.  This theorem evaluates the embedded parse on the
minimal failing document `{profiles: {demo: {label: Demo}}}`. -/
theorem from_yaml_raises_typeerror_on_any_profile_entry :
    fromYamlProfiles (.map [("profiles", .map [("demo", .map [("label", .str "Demo")])])])
      = .error (.typeError "__init__() got an unexpected keyword argument 'pipelines'") := rfl

/-! ### Event bus fault isolation (claim C4) -/

theorem publishLoop_all_invoked (subs : List BusHandler)
    (payload : List (String × Val)) :
    publishLoop subs payload = (subs.map (fun h => h.ref), none) := by
  induction subs with
  | nil => rfl
  | cons fn rest ih =>
    simp only [publishLoop]
    cases fn.run payload with
    | none => simp [ih]
    | some e => simp [ih]

/-- C4: `EventBus.publish` invokes every handler subscribed to the
topic, in subscription order, whatever each handler's behaviour is
(raising handlers included, thanks to the per-call `except`), and the
publish call itself never propagates an exception to the publisher;
with zero subscribers the snapshot is empty and the call returns
without error. -/
theorem event_bus_publish_fault_isolated (bus : EventBus) (topic : String)
    (payload : List (String × Val)) :
    EventBus.publish bus topic payload
      = (((dlookup topic bus.subs).getD []).map (fun h => h.ref), none) := by
  unfold EventBus.publish
  exact publishLoop_all_invoked _ _

/-! ### Role registry cache discipline (claims C5 and C10) -/

theorem set_active_ok_of_registered (rs : RegistryState) (nm : String)
    (h : dhasKey nm rs.registry = true) :
    RoleRegistry.set_active rs nm
      = .ok { rs with active := some nm, activeInstance := none } := by
  simp [RoleRegistry.set_active, h]

theorem set_active_ok_inv (rs rs' : RegistryState) (nm : String)
    (h : RoleRegistry.set_active rs nm = .ok rs') :
    dhasKey nm rs.registry = true ∧
      rs' = { rs with active := some nm, activeInstance := none } := by
  unfold RoleRegistry.set_active at h
  by_cases hk : dhasKey nm rs.registry = true
  · rw [if_neg (by simp [hk])] at h
    exact ⟨hk, (Except.ok.injEq _ _ ▸ h).symm⟩
  · rw [if_pos (by simpa using hk)] at h
    exact Except.noConfusion h

/-- C5: on a role registry whose active name is registered, `get_active`
called twice without an intervening `set_active` hands back the
identical cached instance and leaves the state fixed; `set_active` to a
different registered name succeeds, discards the cached instance, and
the next `get_active` constructs an instance distinct from the previous
one; `set_active` with an unregistered name raises `KeyError`.  The
freshness hypothesis states the registry invariant that a cached
instance was produced by an earlier `instantiate`. -/
theorem role_registry_cache_semantics
    (rs : RegistryState) (n n' m : String) (c c' : PyClass)
    (ha : rs.active = some n) (hc : dlookup n rs.registry = some c)
    (hfresh : ∀ i, rs.activeInstance = some i → i.refId < rs.nextRef)
    (hne : n' ≠ n) (hc' : dlookup n' rs.registry = some c')
    (hm : dlookup m rs.registry = none) :
    (∃ i1 rs1, RoleRegistry.get_active rs = .ok (some i1, rs1) ∧
       RoleRegistry.get_active rs1 = .ok (some i1, rs1) ∧
       (∃ rs2, RoleRegistry.set_active rs1 n' = .ok rs2 ∧
          rs2.activeInstance = none ∧
          ∃ i2 rs3, RoleRegistry.get_active rs2 = .ok (some i2, rs3) ∧ i2 ≠ i1)) ∧
    RoleRegistry.set_active rs m = .error (.keyError ("adapter '" ++ m ++ "' not registered.")) := by
  constructor
  · cases hinst : rs.activeInstance with
    | none =>
      refine ⟨⟨rs.nextRef, c⟩,
        { rs with nextRef := rs.nextRef + 1,
                  activeInstance := some ⟨rs.nextRef, c⟩ }, ?_, ?_, ?_⟩
      · simp [RoleRegistry.get_active, EndpointRegistry.instantiate,
          EndpointRegistry.get, ha, hinst, hc]
      · simp [RoleRegistry.get_active, ha]
      · refine ⟨{ rs with nextRef := rs.nextRef + 1,
                          active := some n', activeInstance := none }, ?_, rfl, ?_⟩
        · have hk : dhasKey n' rs.registry = true := by simp [dhasKey, hc']
          simp [RoleRegistry.set_active, dhasKey, hc']
        · refine ⟨⟨rs.nextRef + 1, c'⟩,
            { rs with nextRef := rs.nextRef + 2,
                      active := some n', activeInstance := some ⟨rs.nextRef + 1, c'⟩ }, ?_, ?_⟩
          · simp [RoleRegistry.get_active, EndpointRegistry.instantiate,
              EndpointRegistry.get, hc']
          · intro hcontr
            have : rs.nextRef + 1 = rs.nextRef := congrArg AdapterInstance.refId hcontr
            omega
    | some i0 =>
      have hlt : i0.refId < rs.nextRef := hfresh i0 hinst
      refine ⟨i0, rs, ?_, ?_, ?_⟩
      · simp [RoleRegistry.get_active, ha, hinst]
      · simp [RoleRegistry.get_active, ha, hinst]
      · refine ⟨{ rs with active := some n', activeInstance := none }, ?_, rfl, ?_⟩
        · simp [RoleRegistry.set_active, dhasKey, hc']
        · refine ⟨⟨rs.nextRef, c'⟩,
            { rs with active := some n', activeInstance := some ⟨rs.nextRef, c'⟩,
                      nextRef := rs.nextRef + 1 }, ?_, ?_⟩
          · simp [RoleRegistry.get_active, EndpointRegistry.instantiate,
              EndpointRegistry.get, hc']
          · intro hcontr
            have : rs.nextRef = i0.refId := congrArg AdapterInstance.refId hcontr
            omega
  · simp [RoleRegistry.set_active, dhasKey, hm]

/-- C5 witness input: a capture-style registry with two registered
adapter classes, the first one active, nothing cached yet. -/
theorem role_registry_cache_witness :
    (∃ i1 rs1,
       RoleRegistry.get_active
         ⟨"CaptureAdapter",
          [("obs", ⟨"OBSAdapter", ["CaptureAdapter"]⟩),
           ("alt", ⟨"AltAdapter", ["CaptureAdapter"]⟩)], some "obs", none, 0⟩
         = .ok (some i1, rs1) ∧
       RoleRegistry.get_active rs1 = .ok (some i1, rs1) ∧
       (∃ rs2, RoleRegistry.set_active rs1 "alt" = .ok rs2 ∧
          rs2.activeInstance = none ∧
          ∃ i2 rs3, RoleRegistry.get_active rs2 = .ok (some i2, rs3) ∧ i2 ≠ i1)) ∧
    RoleRegistry.set_active
      ⟨"CaptureAdapter",
       [("obs", ⟨"OBSAdapter", ["CaptureAdapter"]⟩),
        ("alt", ⟨"AltAdapter", ["CaptureAdapter"]⟩)], some "obs", none, 0⟩ "ghost"
      = .error (.keyError ("adapter '" ++ "ghost" ++ "' not registered.")) :=
  role_registry_cache_semantics
    ⟨"CaptureAdapter",
     [("obs", ⟨"OBSAdapter", ["CaptureAdapter"]⟩),
      ("alt", ⟨"AltAdapter", ["CaptureAdapter"]⟩)], some "obs", none, 0⟩
    "obs" "alt" "ghost" ⟨"OBSAdapter", ["CaptureAdapter"]⟩ ⟨"AltAdapter", ["CaptureAdapter"]⟩
    rfl (by decide) (by intro i h; simp at h) (by decide) (by decide) (by decide)

/-- C10: calling `set_active(n)` when `n` is already the active name
still clears the cached instance, so the sequence `set_active(n);
get_active(); set_active(n); get_active()` constructs two distinct
instances even though the active name never changes. -/
theorem set_active_same_name_reinstantiates
    (rs : RegistryState) (n : String) (c : PyClass)
    (hc : dlookup n rs.registry = some c) :
    ∃ rs1 i1 rs2 rs3 i2 rs4,
      RoleRegistry.set_active rs n = .ok rs1 ∧
      RoleRegistry.get_active rs1 = .ok (some i1, rs2) ∧
      RoleRegistry.set_active rs2 n = .ok rs3 ∧
      RoleRegistry.get_active rs3 = .ok (some i2, rs4) ∧
      i1 ≠ i2 := by
  refine ⟨{ rs with active := some n, activeInstance := none },
    ⟨rs.nextRef, c⟩,
    { rs with active := some n, activeInstance := some ⟨rs.nextRef, c⟩,
              nextRef := rs.nextRef + 1 },
    { rs with active := some n, activeInstance := none,
              nextRef := rs.nextRef + 1 },
    ⟨rs.nextRef + 1, c⟩,
    { rs with active := some n, activeInstance := some ⟨rs.nextRef + 1, c⟩,
              nextRef := rs.nextRef + 2 }, ?_, ?_, ?_, ?_, ?_⟩
  · simp [RoleRegistry.set_active, dhasKey, hc]
  · simp [RoleRegistry.get_active, EndpointRegistry.instantiate,
      EndpointRegistry.get, hc]
  · simp [RoleRegistry.set_active, dhasKey, hc]
  · simp [RoleRegistry.get_active, EndpointRegistry.instantiate,
      EndpointRegistry.get, hc]
  · intro hcontr
    have : rs.nextRef = rs.nextRef + 1 := congrArg AdapterInstance.refId hcontr
    omega

/-- C10 witness: the double re-activation run on a concrete registry. -/
theorem set_active_same_name_witness :
    ∃ rs1 i1 rs2 rs3 i2 rs4,
      RoleRegistry.set_active
        ⟨"CaptureAdapter", [("obs", ⟨"OBSAdapter", ["CaptureAdapter"]⟩)],
         none, none, 0⟩ "obs" = .ok rs1 ∧
      RoleRegistry.get_active rs1 = .ok (some i1, rs2) ∧
      RoleRegistry.set_active rs2 "obs" = .ok rs3 ∧
      RoleRegistry.get_active rs3 = .ok (some i2, rs4) ∧
      i1 ≠ i2 :=
  set_active_same_name_reinstantiates
    ⟨"CaptureAdapter", [("obs", ⟨"OBSAdapter", ["CaptureAdapter"]⟩)], none, none, 0⟩
    "obs" ⟨"OBSAdapter", ["CaptureAdapter"]⟩ (by decide)

/-! ### Profile activation lemmas (claims C3 and C9) -/

theorem activateBindings_not_mem (l : List (String × Adapter)) (regs : Registries)
    (r : String) (h : r ∉ dkeys l) :
    dlookup r (activateBindings l regs).1 = dlookup r regs := by
  induction l generalizing regs with
  | nil => rfl
  | cons p rest ih =>
    obtain ⟨role, ad⟩ := p
    simp only [dkeys, List.map_cons, List.mem_cons] at h
    push_neg at h
    have hr : role ≠ r := fun hh => h.1 hh.symm
    simp only [activateBindings]
    cases hreg : dlookup role regs with
    | none =>
      simp only [hreg]
      exact ih regs h.2
    | some rs =>
      simp only [hreg]
      cases hsa : RoleRegistry.set_active rs ad.name with
      | error e => simp only [hsa]
      | ok rs' =>
        simp only [hsa]
        rw [ih _ h.2, dlookup_dset, if_neg hr]

theorem activateBindings_none_role (l : List (String × Adapter)) (regs : Registries)
    (r : String) (h : dlookup r regs = none) :
    dlookup r (activateBindings l regs).1 = none := by
  induction l generalizing regs with
  | nil => exact h
  | cons p rest ih =>
    obtain ⟨role, ad⟩ := p
    simp only [activateBindings]
    cases hreg : dlookup role regs with
    | none =>
      simp only [hreg]
      exact ih regs h
    | some rs =>
      simp only [hreg]
      cases hsa : RoleRegistry.set_active rs ad.name with
      | error e =>
        simp only [hsa]
        exact h
      | ok rs' =>
        simp only [hsa]
        apply ih
        rw [dlookup_dset]
        have hrr : role ≠ r := by
          intro hh
          rw [hh, h] at hreg
          exact Option.noConfusion hreg
        rw [if_neg hrr]
        exact h

theorem activateBindings_keys (l : List (String × Adapter)) (regs : Registries) :
    dkeys (activateBindings l regs).1 = dkeys regs := by
  induction l generalizing regs with
  | nil => rfl
  | cons p rest ih =>
    obtain ⟨role, ad⟩ := p
    simp only [activateBindings]
    cases hreg : dlookup role regs with
    | none =>
      simp only [hreg]
      exact ih regs
    | some rs =>
      simp only [hreg]
      cases hsa : RoleRegistry.set_active rs ad.name with
      | error e => simp only [hsa]
      | ok rs' =>
        simp only [hsa]
        rw [ih, dkeys_dset_mem]
        simp [dhasKey, hreg]

theorem activateBindings_active (l : List (String × Adapter))
    (regs regs' : Registries)
    (hrun : activateBindings l regs = (regs', none))
    (hnd : (dkeys l).Nodup) (r : String) (ad : Adapter)
    (hb : dlookup r l = some ad) (rs0 : RegistryState)
    (hreg : dlookup r regs = some rs0) :
    dlookup r regs' = some { rs0 with active := some ad.name, activeInstance := none } := by
  induction l generalizing regs with
  | nil => exact absurd hb (by simp [dlookup])
  | cons p rest ih =>
    obtain ⟨role, a⟩ := p
    simp only [dkeys, List.map_cons, List.nodup_cons] at hnd
    simp only [activateBindings] at hrun
    by_cases hrr : role = r
    · subst hrr
      have hba : a = ad := by simpa [dlookup] using hb
      subst hba
      simp only [hreg] at hrun
      cases hsa : RoleRegistry.set_active rs0 a.name with
      | error e =>
        simp only [hsa] at hrun
        exact absurd (congrArg Prod.snd hrun) (by simp)
      | ok rs' =>
        simp only [hsa] at hrun
        obtain ⟨hk, hrs'⟩ := set_active_ok_inv rs0 rs' a.name hsa
        subst hrs'
        have hpres := activateBindings_not_mem rest (dset regs role
          { rs0 with active := some a.name, activeInstance := none }) role hnd.1
        rw [hrun] at hpres
        simp only at hpres
        rw [hpres, dlookup_dset, if_pos rfl]
    · have hb' : dlookup r rest = some ad := by
        simpa [dlookup, hrr] using hb
      cases hreg0 : dlookup role regs with
      | none =>
        simp only [hreg0] at hrun
        exact ih regs hrun hnd.2 hb' hreg
      | some rs =>
        simp only [hreg0] at hrun
        cases hsa : RoleRegistry.set_active rs a.name with
        | error e =>
          simp only [hsa] at hrun
          exact absurd (congrArg Prod.snd hrun) (by simp)
        | ok rs' =>
          simp only [hsa] at hrun
          apply ih (dset regs role rs') hrun hnd.2 hb'
          rw [dlookup_dset, if_neg hrr]
          exact hreg

theorem activateBindings_append (l1 l2 : List (String × Adapter))
    (regs regs1 : Registries)
    (h : activateBindings l1 regs = (regs1, none)) :
    activateBindings (l1 ++ l2) regs = activateBindings l2 regs1 := by
  induction l1 generalizing regs with
  | nil =>
    have hh : regs = regs1 := congrArg Prod.fst h
    rw [List.nil_append, hh]
  | cons p rest ih =>
    obtain ⟨role, a⟩ := p
    simp only [activateBindings, List.cons_append] at h ⊢
    cases hreg : dlookup role regs with
    | none =>
      simp only [hreg] at h ⊢
      exact ih regs h
    | some rs =>
      simp only [hreg] at h ⊢
      cases hsa : RoleRegistry.set_active rs a.name with
      | error e =>
        simp only [hsa] at h
        exact absurd (congrArg Prod.snd h) (by simp)
      | ok rs' =>
        simp only [hsa] at h ⊢
        exact ih (dset regs role rs') h

theorem activateBindings_idem (l : List (String × Adapter))
    (regs regs' : Registries)
    (hnd : (dkeys l).Nodup) (hndr : (dkeys regs).Nodup)
    (hrun : activateBindings l regs = (regs', none)) :
    activateBindings l regs' = (regs', none) := by
  induction l generalizing regs with
  | nil =>
    have hh : regs = regs' := congrArg Prod.fst hrun
    subst hh
    exact hrun
  | cons p rest ih =>
    obtain ⟨role, a⟩ := p
    simp only [dkeys, List.map_cons, List.nodup_cons] at hnd
    simp only [activateBindings] at hrun ⊢
    cases hreg : dlookup role regs with
    | none =>
      simp only [hreg] at hrun
      have hnone : dlookup role regs' = none := by
        have hh := activateBindings_none_role rest regs role hreg
        rw [hrun] at hh
        exact hh
      simp only [hnone]
      exact ih regs hnd.2 hndr hrun
    | some rs =>
      simp only [hreg] at hrun
      cases hsa : RoleRegistry.set_active rs a.name with
      | error e =>
        simp only [hsa] at hrun
        exact absurd (congrArg Prod.snd hrun) (by simp)
      | ok rs' =>
        simp only [hsa] at hrun
        obtain ⟨hk, hrs'⟩ := set_active_ok_inv rs rs' a.name hsa
        have hlook' : dlookup role regs' = some rs' := by
          have hh := activateBindings_not_mem rest (dset regs role rs') role hnd.1
          rw [hrun] at hh
          simp only at hh
          rw [hh, dlookup_dset, if_pos rfl]
        simp only [hlook']
        have hk' : dhasKey a.name rs'.registry = true := by
          rw [hrs']
          exact hk
        rw [set_active_ok_of_registered rs' a.name hk']
        have hfix : { rs' with active := some a.name, activeInstance := none } = rs' := by
          rw [hrs']
        rw [hfix]
        have hkeys1 : dkeys (dset regs role rs') = dkeys regs :=
          dkeys_dset_mem regs role rs' (by simp [dhasKey, hreg])
        have hndr1 : (dkeys (dset regs role rs')).Nodup := by
          rw [hkeys1]
          exact hndr
        have hndr' : (dkeys regs').Nodup := by
          have hh := activateBindings_keys rest (dset regs role rs')
          rw [hrun] at hh
          simp only at hh
          rw [hh]
          exact hndr1
        have hset : dset regs' role rs' = regs' := dset_self regs' role rs' hndr' hlook'
        show activateBindings rest (dset regs' role rs') = (regs', none)
        rw [hset]
        exact ih (dset regs role rs') hnd.2 hndr1 hrun

theorem activate_ok_inv (m : ProfileManager) (k : String)
    (regs regs' : Registries) (p : PipelineProfile)
    (h : ProfileManager.activate m k regs = (regs', .ok p)) :
    ProfileManager.get m k = .ok p ∧ activateBindings p.adapters regs = (regs', none) := by
  unfold ProfileManager.activate at h
  cases hg : ProfileManager.get m k with
  | error e =>
    simp only [hg] at h
    exact absurd (congrArg Prod.snd h) (by simp)
  | ok p0 =>
    simp only [hg] at h
    cases hab : activateBindings p0.adapters regs with
    | mk regsx esc =>
      simp only [hab] at h
      cases esc with
      | none =>
        have h1 : regsx = regs' := congrArg Prod.fst h
        have h2 : p0 = p := by
          have hh := congrArg Prod.snd h
          simpa using hh
        subst h1
        subst h2
        exact ⟨rfl, hab⟩
      | some e =>
        have hh := congrArg Prod.snd h
        simp at hh

/-- C3: activating profile P then profile Q, both binding role `r` to
different registered adapter names, leaves `r`'s active adapter name
equal to Q's binding (last activation wins); re-activating Q on the
resulting registries is a no-op (idempotence); and every binding of Q
whose role has a registry ends activated, regardless of bindings to
roles without a registry (those are skipped, not fatal). -/
theorem profile_activation_last_wins
    (m : ProfileManager) (regs regs1 regs2 : Registries)
    (kP kQ : String) (P Q : PipelineProfile) (r : String) (adP adQ : Adapter)
    (rs0 : RegistryState)
    (hndP : (dkeys P.adapters).Nodup) (hndQ : (dkeys Q.adapters).Nodup)
    (hndr : (dkeys regs).Nodup)
    (hbP : dlookup r P.adapters = some adP) (hbQ : dlookup r Q.adapters = some adQ)
    (hne : adP.name ≠ adQ.name)
    (hr0 : dlookup r regs = some rs0)
    (hP : ProfileManager.activate m kP regs = (regs1, .ok P))
    (hQ : ProfileManager.activate m kQ regs1 = (regs2, .ok Q)) :
    (∃ rs2, dlookup r regs2 = some rs2 ∧ rs2.active = some adQ.name) ∧
    ProfileManager.activate m kQ regs2 = (regs2, .ok Q) ∧
    (∀ r' ad' rs', dlookup r' Q.adapters = some ad' →
       dlookup r' regs1 = some rs' →
       ∃ rs'', dlookup r' regs2 = some rs'' ∧ rs''.active = some ad'.name) := by
  obtain ⟨hgP, habP⟩ := activate_ok_inv m kP regs regs1 P hP
  obtain ⟨hgQ, habQ⟩ := activate_ok_inv m kQ regs1 regs2 Q hQ
  have hr1 : dlookup r regs1
      = some { rs0 with active := some adP.name, activeInstance := none } :=
    activateBindings_active P.adapters regs regs1 habP hndP r adP hbP rs0 hr0
  refine ⟨?_, ?_, ?_⟩
  · exact ⟨_, activateBindings_active Q.adapters regs1 regs2 habQ hndQ r adQ hbQ _ hr1, rfl⟩
  · have hndr1 : (dkeys regs1).Nodup := by
      have hh := activateBindings_keys P.adapters regs
      rw [habP] at hh
      simp only at hh
      rw [hh]
      exact hndr
    have hidem := activateBindings_idem Q.adapters regs1 regs2 hndQ hndr1 habQ
    unfold ProfileManager.activate
    simp only [hgQ, hidem]
  · intro r' ad' rs' hb' hl'
    exact ⟨_, activateBindings_active Q.adapters regs1 regs2 habQ hndQ r' ad' hb' rs' hl', rfl⟩

/-- C3 witness: the two-profile scenario run on concrete registries. -/
theorem profile_activation_last_wins_witness :
    (∃ rs2, dlookup "capture" regs2W = some rs2 ∧ rs2.active = some adAlt.name) ∧
    ProfileManager.activate mgrW "q" regs2W = (regs2W, .ok profQ) ∧
    (∀ r' ad' rs', dlookup r' profQ.adapters = some ad' →
       dlookup r' regs1W = some rs' →
       ∃ rs'', dlookup r' regs2W = some rs'' ∧ rs''.active = some ad'.name) :=
  profile_activation_last_wins mgrW regsW regs1W regs2W "p" "q" profP profQ
    "capture" adObs adAlt
    ⟨"CaptureAdapter", [("obs", obsCls), ("alt", altCls)], none, none, 0⟩
    (by decide) (by decide) (by decide) rfl rfl (by decide) rfl rfl rfl

/-- C9: a profile that binds an earlier role to a registered adapter and
a later role to an unregistered adapter name makes
`ProfileManager.activate` raise `KeyError`, while every role binding
iterated before the failing one remains activated — activation is not
atomic across roles and the registries are left partially mutated. -/
theorem profile_activation_partial_on_unknown_adapter
    (m : ProfileManager) (k : String) (P : PipelineProfile)
    (regs regs1 : Registries) (l1 l2 : List (String × Adapter))
    (rB : String) (adB : Adapter) (rsB : RegistryState)
    (hget : ProfileManager.get m k = .ok P)
    (hsplit : P.adapters = l1 ++ (rB, adB) :: l2)
    (hrun1 : activateBindings l1 regs = (regs1, none))
    (hknown : dlookup rB regs1 = some rsB)
    (hmiss : dlookup adB.name rsB.registry = none) :
    ProfileManager.activate m k regs
      = (regs1, .error (.keyError ("adapter '" ++ adB.name ++ "' not registered."))) ∧
    (∀ r ad rs0, (dkeys l1).Nodup → dlookup r l1 = some ad →
       dlookup r regs = some rs0 →
       dlookup r regs1 = some { rs0 with active := some ad.name, activeInstance := none }) := by
  constructor
  · unfold ProfileManager.activate
    simp only [hget, hsplit]
    rw [activateBindings_append l1 ((rB, adB) :: l2) regs regs1 hrun1]
    have hsa : RoleRegistry.set_active rsB adB.name
        = .error (.keyError ("adapter '" ++ adB.name ++ "' not registered.")) := by
      simp [RoleRegistry.set_active, dhasKey, hmiss]
    simp only [activateBindings, hknown, hsa]
  · intro r ad rs0 hnd hb hr
    exact activateBindings_active l1 regs regs1 hrun1 hnd r ad hb rs0 hr

/-- C9 witness: the capture binding activates, then the watcher binding
fails on the unregistered name "ghost", leaving capture active. -/
theorem profile_activation_partial_witness :
    ProfileManager.activate mgrW9 "bad" regsW9
      = (regs1W9, .error (.keyError ("adapter '" ++ adGhost.name ++ "' not registered."))) ∧
    (∀ r ad rs0, (dkeys [("capture", adObs)]).Nodup →
       dlookup r [("capture", adObs)] = some ad →
       dlookup r regsW9 = some rs0 →
       dlookup r regs1W9 = some { rs0 with active := some ad.name, activeInstance := none }) :=
  profile_activation_partial_on_unknown_adapter mgrW9 "bad" profBad regsW9 regs1W9
    [("capture", adObs)] [] "watcher" adGhost watcherRSW9
    rfl rfl rfl rfl rfl

/-! ### Override resolution (claim C7) -/

/-- C7: `resolve_capture_profile` without a profile key returns the
caller-supplied overrides unchanged and leaves the registries
untouched; with a profile key whose profile binds the role, the
returned overrides are exactly the shallow union of the binding's
overrides and the caller's, the caller winning on every conflicting
key. -/
theorem resolve_capture_profile_shallow_merge
    (m : ProfileManager) (role k : String)
    (O : List (String × Val)) (regs regs' : Registries)
    (p : PipelineProfile) (ad : Adapter)
    (hndO : (dkeys O).Nodup) (hndB : (dkeys ad.overrides).Nodup)
    (hk : k ≠ "")
    (hact : ProfileManager.activate m k regs = (regs', .ok p))
    (hbind : dlookup role p.adapters = some ad) :
    resolve_capture_profile m role none (some O) regs = (regs, .ok ⟨none, O⟩) ∧
    (∃ merged, resolve_capture_profile m role (some k) (some O) regs
        = (regs', .ok ⟨some p, merged⟩) ∧
      ∀ key, dlookup key merged =
        match dlookup key O with
        | some v => some v
        | none => dlookup key ad.overrides) := by
  constructor
  · rfl
  · refine ⟨dupdate (dupdate [] ad.overrides) O, ?_, ?_⟩
    · unfold resolve_capture_profile
      have hkeq : (k == "") = false := by
        simp [hk]
      simp only [hkeq, hact, hbind, Option.getD_some, Bool.false_eq_true, if_false]
    · intro key
      rw [dlookup_dupdate O (dupdate [] ad.overrides) key hndO]
      cases hO : dlookup key O with
      | some v => rfl
      | none =>
        rw [dlookup_dupdate ad.overrides [] key hndB]
        cases hB : dlookup key ad.overrides with
        | some v => rfl
        | none => rfl

/-- C7 witness: the spec's example, profile overrides a=1, b=2 merged
with caller overrides b=3, c=4, yielding exactly a=1, b=3, c=4. -/
theorem resolve_capture_profile_merge_witness :
    (resolve_capture_profile mgrOv "capture" none (some oW) regsW
        = (regsW, .ok ⟨none, oW⟩) ∧
     (∃ merged, resolve_capture_profile mgrOv "capture" (some "ov") (some oW) regsW
         = (regs1W, .ok ⟨some profOv, merged⟩) ∧
       ∀ key, dlookup key merged =
         match dlookup key oW with
         | some v => some v
         | none => dlookup key adObsOv.overrides)) ∧
    dupdate (dupdate [] bW) oW = [("a", .vInt 1), ("b", .vInt 3), ("c", .vInt 4)] := by
  refine ⟨resolve_capture_profile_shallow_merge mgrOv "capture" "ov" oW regsW regs1W
    profOv adObsOv (by decide) (by decide) (by decide) rfl rfl, ?_⟩
  rfl

/-! ### Preflight required-flag resolution (claim C6) -/

theorem preflight_get_of_find (checks : ChecksTable) (role id : String)
    (c : PreflightCheck) (h : checksFind checks role id = some c) :
    PreflightRegistry.get checks role id = .ok c := by
  unfold checksFind at h
  unfold PreflightRegistry.get
  cases hr : dlookup role checks with
  | none =>
    simp only [hr] at h
    exact Option.noConfusion h
  | some byId =>
    simp only [hr] at h ⊢
    simp only [h]

theorem runPreflightConfigs_spec (checks : ChecksTable) (role pk : String)
    (adapter : Nat) (base : List (String × Val)) (sid : Option String)
    (cs : List PreflightConfig)
    (hres : ∀ cfg ∈ cs, (checksFind checks role cfg.id).isSome = true) :
    runPreflightConfigs checks role pk adapter base sid cs
      = .ok (preflightFailuresSpec checks role pk adapter base sid cs) := by
  induction cs with
  | nil => rfl
  | cons cfg rest ih =>
    have h0 := hres cfg (List.mem_cons_self _ _)
    cases hcf : checksFind checks role cfg.id with
    | none =>
      rw [hcf] at h0
      simp at h0
    | some check =>
      have hget := preflight_get_of_find checks role cfg.id check hcf
      have ih' := ih (fun c hc => hres c (List.mem_cons_of_mem _ hc))
      simp only [runPreflightConfigs, hget]
      cases hrunc : check.run ⟨role, dupdate base cfg.params, adapter, sid, some pk⟩ with
      | none =>
        simp only [hrunc, ih']
        simp only [preflightFailuresSpec, List.filterMap_cons, hcf, hrunc]
      | some f =>
        simp only [hrunc, ih']
        simp only [preflightFailuresSpec, List.filterMap_cons, hcf, hrunc]

/-- C6: for every configured check that `run_preflights` resolves, a
returned failure's `required` flag is the profile's override when
present, else the check's own declared `default_required`; the engine
runs every configured check in order, accumulating all failures without
short-circuiting — stated as the loop computing exactly the declarative
per-config failure list written from the spec. -/
theorem run_preflights_required_resolution (checks : ChecksTable)
    (role : String) (p : PipelineProfile) (adapter : Nat)
    (base : List (String × Val)) (sid : Option String) (ad : Adapter)
    (hbind : dlookup role p.adapters = some ad)
    (hres : ∀ cfg ∈ ad.preflights, (checksFind checks role cfg.id).isSome = true) :
    run_preflights checks role (some p) adapter base sid
      = .ok (preflightFailuresSpec checks role p.key adapter base sid ad.preflights) := by
  unfold run_preflights
  simp only [hbind]
  exact runPreflightConfigs_spec checks role p.key adapter base sid ad.preflights hres

/-- C6 witness: the always-failing check configured twice, once with a
profile override `required: false` and once without, yields a soft and
then a required failure for the identical failure condition. -/
theorem run_preflights_resolution_witness :
    run_preflights checksW "capture" (some profC6) 0 [] (some "S1")
      = .ok (preflightFailuresSpec checksW "capture" "c6" 0 [] (some "S1") adC6.preflights) ∧
    preflightFailuresSpec checksW "capture" "c6" 0 [] (some "S1") adC6.preflights
      = [⟨"capture.disk_space", "low disk", false⟩,
         ⟨"capture.disk_space", "low disk", true⟩] := by
  refine ⟨run_preflights_required_resolution checksW "capture" profC6 0 [] (some "S1")
    adC6 rfl (by decide), ?_⟩
  rfl

/-! ### Capture start preflight gate (claim C2) -/

/-- C2: when `run_preflights` returns at least one failure with
`required = True`, `CaptureService.start` raises a `RuntimeError` whose
message contains the id and message of every required failure, and the
call publishes no event on the bus (neither `capture.started` nor
`manifest.updated` — the events list of the outcome is empty); when no
required failure is present the call proceeds past the gate into the
post-preflight path, which does not read the failures, so soft failures
alone never cause an abort. -/
theorem capture_start_preflight_gate
    (svc : CaptureService) (checks : ChecksTable) (sid : String)
    (scene profile : Option String) (overrides : Option (List (String × Val)))
    (pp : Option PipelineProfile) (now : Nat)
    (adapter : CaptureAdapter) (failures : List PreflightFailure)
    (hsid : sid ≠ "")
    (hadapter : getConfiguredAdapter svc
        (dupdate (dset svc.settings "session_id" (.vStr sid)) (overrides.getD []))
      = .ok adapter)
    (hrun : run_preflights checks "capture" pp adapter.ref
        (dupdate (dset svc.settings "session_id" (.vStr sid)) (overrides.getD []))
        (some sid) = .ok failures) :
    (failures.filter (fun f => f.required) ≠ [] →
       CaptureService.start svc checks sid scene profile overrides pp now
         = ⟨.error (.runtimeError (captureStartMsg (failures.filter (fun f => f.required)))),
            [], svc.state⟩ ∧
       ∀ f ∈ failures.filter (fun f => f.required),
         strContainsSub (captureStartMsg (failures.filter (fun f => f.required)))
           (f.id ++ ": " ++ f.message)) ∧
    (failures.filter (fun f => f.required) = [] →
       CaptureService.start svc checks sid scene profile overrides pp now
         = startAfterPreflight svc adapter
             (dupdate (dset svc.settings "session_id" (.vStr sid)) (overrides.getD []))
             sid scene profile pp now) := by
  have hneq : (sid == "") = false := by
    simp [hsid]
  constructor
  · intro hreq
    constructor
    · have hie : (failures.filter (fun f => f.required)).isEmpty = false := by
        cases hfe : failures.filter (fun f => f.required) with
        | nil => exact absurd hfe hreq
        | cons a l => rfl
      unfold CaptureService.start
      simp only [hneq, Bool.false_eq_true, if_false, hadapter, hrun, hie]
    · intro f hf
      unfold captureStartMsg
      apply strContainsSub_append_left
      apply joinSep_mem
      exact List.mem_map_of_mem _ hf
  · intro hreq
    unfold CaptureService.start
    simp only [hneq, Bool.false_eq_true, if_false, hadapter, hrun, hreq, List.isEmpty_nil,
      if_true]

/-- C2 witness: the unsatisfiable required disk-space check aborts a
concrete `start` call with the aggregated message and no published
events. -/
theorem capture_start_abort_witness :
    CaptureService.start svcW2 checksW "S1" none none none (some profC2) 0
      = ⟨.error (.runtimeError (captureStartMsg
          [⟨"capture.disk_space", "low disk", true⟩])), [], svcW2.state⟩ ∧
    strContainsSub (captureStartMsg [⟨"capture.disk_space", "low disk", true⟩])
      ("capture.disk_space" ++ ": " ++ "low disk") := by
  have h := capture_start_preflight_gate svcW2 checksW "S1" none none none
    (some profC2) 0 adW2 [⟨"capture.disk_space", "low disk", true⟩]
    (by decide) rfl rfl
  have h1 := h.1 (by decide)
  exact ⟨h1.1, h1.2 ⟨"capture.disk_space", "low disk", true⟩ (by decide)⟩

/-! ### Plugin bootstrap registration (claim C8) -/

theorem dlookup_mapVal {κ α β : Type} [DecidableEq κ] (g : α → β)
    (d : List (κ × α)) (r : κ) :
    dlookup r (d.map (fun p => (p.1, g p.2))) = (dlookup r d).map g := by
  induction d with
  | nil => rfl
  | cons p rest ih =>
    obtain ⟨k1, v1⟩ := p
    by_cases hk : k1 = r
    · simp [dlookup, hk]
    · simp [dlookup, hk, ih]

theorem register_ok_inv (rs rs' : RegistryState) (nm : String) (impl : PyClass)
    (h : EndpointRegistry.register rs nm impl false = .ok rs') :
    dhasKey nm rs.registry = false ∧
      rs' = { rs with registry := dset rs.registry nm impl } := by
  unfold EndpointRegistry.register at h
  cases hb : impl.bases.contains rs.endpointBase with
  | false =>
    rw [hb] at h
    simp only [Bool.not_false, if_true] at h
    exact Except.noConfusion h
  | true =>
    rw [hb] at h
    simp only [Bool.not_true, Bool.false_eq_true, if_false] at h
    cases hk : dhasKey nm rs.registry with
    | true =>
      rw [hk] at h
      simp only [Bool.not_false, Bool.true_and, if_true] at h
      exact Except.noConfusion h
    | false =>
      rw [hk] at h
      simp only [Bool.not_false, Bool.true_and, Bool.false_eq_true, if_false] at h
      exact ⟨rfl, ((Except.ok.injEq _ _).mp h).symm⟩

theorem pluginsGo_preserves (imports : ImportTable) (ds : List PluginDescriptor) :
    ∀ regs regs', pluginsOnLoadGo imports ds regs = (regs', none) →
    ∀ role rs nm c, dlookup role regs = some rs →
    dlookup nm rs.registry = some c →
    ∃ rs2, dlookup role regs' = some rs2 ∧ dlookup nm rs2.registry = some c := by
  induction ds with
  | nil =>
    intro regs regs' h role rs nm c h1 h2
    have hh : regs = regs' := congrArg Prod.fst h
    subst hh
    exact ⟨rs, h1, h2⟩
  | cons d rest ih =>
    intro regs regs' h role rs nm c h1 h2
    simp only [pluginsOnLoadGo] at h
    cases hl : loadAdapterFromDescriptor imports d "trivox_conductor" with
    | error e =>
      simp only [hl] at h
      exact absurd (congrArg Prod.snd h) (by simp)
    | ok clazz =>
      simp only [hl] at h
      cases hdr : dlookup d.role regs with
      | none =>
        simp only [hdr] at h
        exact ih regs regs' h role rs nm c h1 h2
      | some rsd =>
        simp only [hdr] at h
        cases hreg : EndpointRegistry.register rsd (lowerStr clazz.nameAttr) clazz false with
        | error e =>
          simp only [hreg] at h
          exact absurd (congrArg Prod.snd h) (by simp)
        | ok rsd' =>
          simp only [hreg] at h
          obtain ⟨hnk, hrs'⟩ := register_ok_inv rsd rsd' _ clazz hreg
          by_cases hrr : d.role = role
          · subst hrr
            have hrseq : rs = rsd := by
              rw [h1] at hdr
              exact (Option.some.injEq _ _).mp hdr
            subst hrseq
            have h2' : dlookup nm rsd'.registry = some c := by
              rw [hrs']
              show dlookup nm (dset rs.registry (lowerStr clazz.nameAttr) clazz) = some c
              rw [dlookup_dset]
              have hne2 : lowerStr clazz.nameAttr ≠ nm := by
                intro hh
                rw [hh] at hnk
                simp [dhasKey, h2] at hnk
              rw [if_neg hne2]
              exact h2
            exact ih _ regs' h d.role rsd' nm c
              (by rw [dlookup_dset, if_pos rfl]) h2'
          · exact ih _ regs' h role rs nm c
              (by rw [dlookup_dset, if_neg hrr]; exact h1) h2

theorem pluginsGo_registers (imports : ImportTable) (ds : List PluginDescriptor) :
    ∀ regs regs', pluginsOnLoadGo imports ds regs = (regs', none) →
    ∀ d ∈ ds, ∀ clazz,
    loadAdapterFromDescriptor imports d "trivox_conductor" = .ok clazz →
    ∀ rs0, dlookup d.role regs = some rs0 →
    ∃ rs2, dlookup d.role regs' = some rs2 ∧
      dlookup (lowerStr clazz.nameAttr) rs2.registry = some clazz := by
  induction ds with
  | nil =>
    intro regs regs' h d hd
    exact absurd hd (by simp)
  | cons d0 rest ih =>
    intro regs regs' h d hd clazz hload rs0 hrole
    simp only [pluginsOnLoadGo] at h
    cases hl0 : loadAdapterFromDescriptor imports d0 "trivox_conductor" with
    | error e =>
      simp only [hl0] at h
      exact absurd (congrArg Prod.snd h) (by simp)
    | ok clazz0 =>
      simp only [hl0] at h
      rcases List.mem_cons.mp hd with hdd | hdtail
      · subst hdd
        have hcz : clazz0 = clazz := by
          rw [hl0] at hload
          exact (Except.ok.injEq _ _).mp hload
        subst hcz
        rw [hrole] at h
        cases hreg : EndpointRegistry.register rs0 (lowerStr clazz0.nameAttr) clazz0 false with
        | error e =>
          simp only [hreg] at h
          exact absurd (congrArg Prod.snd h) (by simp)
        | ok rsd' =>
          simp only [hreg] at h
          obtain ⟨hnk, hrs'⟩ := register_ok_inv rs0 rsd' _ clazz0 hreg
          have hnew : dlookup (lowerStr clazz0.nameAttr) rsd'.registry = some clazz0 := by
            rw [hrs']
            show dlookup (lowerStr clazz0.nameAttr)
              (dset rs0.registry (lowerStr clazz0.nameAttr) clazz0) = some clazz0
            rw [dlookup_dset, if_pos rfl]
          exact pluginsGo_preserves imports rest _ regs' h d.role rsd'
            (lowerStr clazz0.nameAttr) clazz0
            (by rw [dlookup_dset, if_pos rfl]) hnew
      · cases hdr0 : dlookup d0.role regs with
        | none =>
          simp only [hdr0] at h
          exact ih regs regs' h d hdtail clazz hload rs0 hrole
        | some rsd =>
          simp only [hdr0] at h
          cases hreg : EndpointRegistry.register rsd (lowerStr clazz0.nameAttr) clazz0 false with
          | error e =>
            simp only [hreg] at h
            exact absurd (congrArg Prod.snd h) (by simp)
          | ok rsd' =>
            simp only [hreg] at h
            by_cases hrr : d0.role = d.role
            · exact ih _ regs' h d hdtail clazz hload rsd'
                (by rw [dlookup_dset, if_pos hrr])
            · exact ih _ regs' h d hdtail clazz hload rs0
                (by rw [dlookup_dset, if_neg hrr]; exact hrole)

/-- C8 counterexample: the claim as stated registers the
`capture_obs`/`OBSAdapter` descriptor under the descriptor's name
lowercased, `"capture_obs"`.  Running the embedded bootstrap step on
that descriptor succeeds but leaves no entry under `"capture_obs"` —
the class is registered under `"obsadapter"`, the resolved class's
`__name__` lowercased. -/
theorem plugins_descriptor_name_counterexample :
    PluginsLoader.on_load bootImports [obsDescriptor] bootRegs
      = (finalBootRegs, none) ∧
    dlookup (lowerStr "capture_obs")
      (⟨"CaptureAdapter", [("obsadapter", obsCls)], none, none, 0⟩ : RegistryState).registry
      = none ∧
    dlookup (lowerStr "OBSAdapter")
      (⟨"CaptureAdapter", [("obsadapter", obsCls)], none, none, 0⟩ : RegistryState).registry
      = some obsCls := ⟨rfl, rfl, rfl⟩

/-- C8 (amended): every descriptor resolved at plugin bootstrap is
registered under the resolved class's `__name__` lowercased into the
registry matching `descriptor.role`, and a descriptor whose role has no
known registry is skipped without making the bootstrap step fail. -/
theorem plugins_onload_registers_under_class_name
    (imports : ImportTable) (ds : List PluginDescriptor) (regs regs' : Registries)
    (hok : PluginsLoader.on_load imports ds regs = (regs', none)) :
    (∀ d ∈ ds, ∀ clazz,
       loadAdapterFromDescriptor imports d "trivox_conductor" = .ok clazz →
       ∀ rs0, dlookup d.role regs = some rs0 →
       ∃ rs2, dlookup d.role regs' = some rs2 ∧
         dlookup (lowerStr clazz.nameAttr) rs2.registry = some clazz) ∧
    (∀ d2 ds2 regs2,
       (∃ c2, loadAdapterFromDescriptor imports d2 "trivox_conductor" = .ok c2) →
       dlookup d2.role regs2 = none →
       pluginsOnLoadGo imports (d2 :: ds2) regs2 = pluginsOnLoadGo imports ds2 regs2) := by
  constructor
  · intro d hd clazz hload rs0 hrole
    have hrole' : dlookup d.role (clearAll regs) = some (EndpointRegistry.clear rs0) := by
      unfold clearAll
      rw [dlookup_mapVal, hrole]
      rfl
    exact pluginsGo_registers imports ds (clearAll regs) regs' hok d hd clazz hload
      _ hrole'
  · intro d2 ds2 regs2 hc2 hnone
    obtain ⟨c2, hc2⟩ := hc2
    simp only [pluginsOnLoadGo, hc2, hnone]

/-- C8 witness: the bootstrap run over the OBS descriptor plus a
descriptor of an unknown role succeeds, registering the OBS class
under its lowercased `__name__`. -/
theorem plugins_onload_registers_witness :
    (∀ d ∈ [obsDescriptor, ghostDescriptor], ∀ clazz,
       loadAdapterFromDescriptor bootImports d "trivox_conductor" = .ok clazz →
       ∀ rs0, dlookup d.role bootRegs = some rs0 →
       ∃ rs2, dlookup d.role finalBootRegs = some rs2 ∧
         dlookup (lowerStr clazz.nameAttr) rs2.registry = some clazz) ∧
    (∀ d2 ds2 regs2,
       (∃ c2, loadAdapterFromDescriptor bootImports d2 "trivox_conductor" = .ok c2) →
       dlookup d2.role regs2 = none →
       pluginsOnLoadGo bootImports (d2 :: ds2) regs2 = pluginsOnLoadGo bootImports ds2 regs2) :=
  plugins_onload_registers_under_class_name bootImports [obsDescriptor, ghostDescriptor]
    bootRegs finalBootRegs rfl

end Trivox
